import Mathlib

/-!
Shallow embedding of hmkconf's configuration transfer and compatibility
reconciliation engine, translated from:

  * `src/api/use-import-config.ts`  (validateConfigFile, checkCompatibility,
    applySettings, importConfig, handleCompatibilityContinue),
  * `src/components/configurator/settings/compatibility-dialog.tsx`
    (hasErrors and the gating of the "Import Selected" button),
  * the export hook (`useExportConfig`: getFirmwareVersion, fetchProfileData,
    exportConfig).

Untrusted configuration documents are modelled as a JSON value type `Json`
(the result of `JSON.parse`, so objects have no duplicate keys and there is
no `undefined` value; a missing-field access is `Option.none`).  JavaScript
semantics that the source relies on (truthiness, `typeof x === "object"`,
`Object.keys`, `parseInt`, string coercion via `String(x)`) are embedded as
explicit functions.  Device I/O is modelled by oracles: each fallible device
call is an `Except Unit` result carried by the device value, and device
writes are recorded in an ordered log.  Toast notifications are UI-only and
are not part of the modelled state, except that progress toasts' `{completed,
total}` payloads are recorded as progress events.  The user's cooperative
cancellation flag is modelled by an optional threshold `cancelAfter`: the
flag reads true at a check point once at least `cancelAfter` device writes
have been attempted (the flag is monotone, matching a flag that is raised
once and never lowered).
-/

namespace Hmkconf

/-- JSON values as produced by `JSON.parse`. -/
inductive Json where
  | null
  | bool (b : Bool)
  | num (n : Int)
  | str (s : String)
  | arr (elems : List Json)
  | obj (fields : List (String × Json))
deriving Repr, Inhabited

/-- JavaScript truthiness of a value. -/
def Json.truthy : Json → Bool
  | .null => false
  | .bool b => b
  | .num n => n != 0
  | .str s => !s.data.isEmpty
  | .arr _ => true
  | .obj _ => true

/-- JavaScript `typeof x === "object"` (true for objects, arrays and `null`). -/
def Json.isObjType : Json → Bool
  | .null => true
  | .arr _ => true
  | .obj _ => true
  | _ => false

/-- Property access `x[k]`: `none` models the JavaScript value `undefined`.
Array values expose their elements under stringified indices, like JS arrays.
(Accessing a named property of a string/number/boolean yields `undefined`;
we do not model string index properties, which no validated document can
reach.) -/
def Json.get? : Json → String → Option Json
  | .obj fields, k => fields.lookup k
  | .arr elems, k => (elems.enum.find? (fun p => toString p.fst == k)).map Prod.snd
  | _, _ => none

/-- JavaScript `Object.keys x` (own enumerable keys; `[]` for primitives). -/
def Json.jsKeys : Json → List String
  | .obj fields => fields.map Prod.fst
  | .arr elems => (List.range elems.length).map (fun i => toString i)
  | _ => []

/-- Truthiness of a possibly-`undefined` value. -/
def jsTruthyO : Option Json → Bool
  | some j => j.truthy
  | none => false

/-- JavaScript `typeof x === "string"` for a possibly-`undefined` value. -/
def isStrO : Option Json → Bool
  | some (.str _) => true
  | _ => false

/-- JavaScript `typeof x === "number"` for a possibly-`undefined` value. -/
def isNumO : Option Json → Bool
  | some (.num _) => true
  | _ => false

/-- Two-step property access `x[k1][k2]`, defined (as `undefined`) even where
JavaScript would throw a `TypeError`; every use below is guarded by the
validator or by a truthiness test exactly as in the source. -/
def getPath2 (cfg : Json) (k1 k2 : String) : Option Json :=
  (cfg.get? k1).bind (fun j => j.get? k2)

/-- JavaScript `.length` of a value: `some` for arrays and strings,
`none` (`undefined`) otherwise. -/
def lenO : Json → Option Nat
  | .arr elems => some elems.length
  | .str s => some s.data.length
  | _ => none

/-- JavaScript `x[0]` for arrays and strings. -/
def firstElem : Json → Option Json
  | .arr (x :: _) => some x
  | .str s =>
    match s.data with
    | c :: _ => some (.str (String.mk [c]))
    | [] => none
  | _ => none

/-- Elements iterated by `for (let i = 0; i < x.length; i++)`: the elements
for an array, nothing for a non-array (whose `.length` is `undefined`, so the
loop body never runs).  String keymaps cannot survive validation, so their
character indexing is not modelled. -/
def jsArrElems : Json → List Json
  | .arr elems => elems
  | _ => []

/-- JavaScript `String(x)` coercion.  Faithful for strings and numbers — the
only shapes `deviceInfo.firmwareVersion` can have in a validated document;
the remaining cases are simple approximations of `Array.prototype.toString`
and friends, unreachable after `validateConfigFile`. -/
def jsStringOf : Json → String
  | .null => "null"
  | .bool true => "true"
  | .bool false => "false"
  | .num n => toString n
  | .str s => s
  | .arr _ => ""
  | .obj _ => "[object Object]"

/-- String coercion of a possibly-`undefined` value (`String(undefined)`). -/
def jsStringOfO : Option Json → String
  | none => "undefined"
  | some j => jsStringOf j

/-- Digit run to a natural number. -/
def digitsToNat (cs : List Char) : Nat :=
  cs.foldl (fun a c => a * 10 + (c.toNat - '0'.toNat)) 0

/-- JavaScript `parseInt(s, 10)`: skip leading whitespace, read an optional
sign and a maximal digit run; `none` models `NaN`. -/
def parseIntJS (cs : List Char) : Option Int :=
  let cs := cs.dropWhile (fun c => c == ' ' || c == '\t' || c == '\n' || c == '\r')
  let signAndRest : Bool × List Char :=
    match cs with
    | '-' :: rest => (true, rest)
    | '+' :: rest => (false, rest)
    | rest => (false, rest)
  let digits := signAndRest.2.takeWhile Char.isDigit
  if digits.isEmpty then none
  else some ((if signAndRest.1 then -1 else 1) * (digitsToNat digits : Int))

/-- Test `file.name.toLowerCase().endsWith(".json")`. -/
def endsWithJson (name : String) : Bool :=
  match (name.data.map Char.toLower).reverse with
  | 'n' :: 'o' :: 's' :: 'j' :: '.' :: _ => true
  | _ => false

/-! ## Data model: issues and devices -/

/-- Category of a compatibility issue (`type` in the source). -/
inductive IssueType where
  | device
  | firmware
  | settings
deriving Repr, DecidableEq

/-- Severity of a compatibility issue. -/
inductive Severity where
  | warning
  | error
deriving Repr, DecidableEq

/-- CompatibilityIssue from `compatibility-dialog.tsx`. -/
structure CompatibilityIssue where
  type : IssueType
  severity : Severity
  message : String
deriving Repr, DecidableEq

/-- Device capability metadata (`device.metadata`).  Fields the source probes
with `!== undefined` or by truthiness are `Option Nat`. -/
structure DeviceMetadata where
  name : String
  numKeys : Option Nat
  numLayers : Option Nat
  numAdvancedKeys : Option Nat
deriving Repr

/-- The connected device as seen by the import path: capability metadata plus
oracles for the outcomes of its fallible async reads (`firmwareVersion()`,
`getProfile()`). -/
structure Device where
  metadata : DeviceMetadata
  firmwareRes : Except Unit Int
  getProfileRes : Except Unit Int
deriving Repr

/-- Truthiness of an optional numeric capability field (e.g. the source's
`device.metadata.numLayers` guard): present and nonzero. -/
def truthyNum : Option Nat → Bool
  | some n => n != 0
  | none => false

/-! ## validateConfigFile (use-import-config.ts lines 33-277)

The validator receives the raw `JSON.parse` result and checks it field by
field, toasting and returning `false` at the first problem.  Toasts are UI
and are not modelled; the returned boolean is. -/

/-- Keymap shape check shared by the per-profile and legacy branches: must be
a non-empty array whose every element is a non-empty array. -/
def checkKeymap (km : Json) : Bool :=
  match km with
  | .arr layers =>
    !layers.isEmpty && layers.all (fun l =>
      match l with
      | .arr (_ :: _) => true
      | _ => false)
  | _ => false

/-- Per-profile validation (lines 133-183): profile must be a truthy object
with at least one key; a present `keymap` must pass `checkKeymap`. -/
def checkProfileEntry (p : Json) : Bool :=
  if !(p.truthy && p.isObjType) then false
  else if p.jsKeys.isEmpty then false
  else
    match p.get? "keymap" with
    | none => true
    | some km => checkKeymap km

/-- New-format validation (lines 109-197): `profiles` must be of object type
with at least one key, every profile must pass `checkProfileEntry`, and a
truthy `settings` must be of object type. -/
def validateNewFormat (cfg ps : Json) : Bool :=
  if !ps.isObjType then false
  else if ps.jsKeys.isEmpty then false
  else if !(ps.jsKeys.all (fun pid =>
      match ps.get? pid with
      | some p => checkProfileEntry p
      | none => false)) then false
  else if jsTruthyO (cfg.get? "settings")
      && !(match cfg.get? "settings" with
           | some s => s.isObjType
           | none => false) then false
  else true

/-- Legacy-format validation (lines 200-267): `settings` must be a truthy
object containing at least one of the five known fields; a present `keymap`
must pass `checkKeymap`. -/
def validateLegacy (cfg : Json) : Bool :=
  match cfg.get? "settings" with
  | none => false
  | some s =>
    if !(s.truthy && s.isObjType) then false
    else if !(["keymap", "actuationMap", "advancedKeys", "tickRate",
               "calibration"].any (fun k => (s.get? k).isSome)) then false
    else
      match s.get? "keymap" with
      | none => true
      | some km => checkKeymap km

/-- Validation of a parsed configuration document. -/
def validateConfigFile (cfg : Json) : Bool :=
  if !(cfg.truthy && cfg.isObjType) then false
  else if !(isStrO (cfg.get? "version")) then false
  else if !(isStrO (cfg.get? "timestamp")) then false
  else if !(jsTruthyO (cfg.get? "deviceInfo")
            && (match cfg.get? "deviceInfo" with
                | some di => di.isObjType
                | none => false)) then false
  else if !(isStrO (getPath2 cfg "deviceInfo" "name")) then false
  else if !(isStrO (getPath2 cfg "deviceInfo" "firmwareVersion")
            || isNumO (getPath2 cfg "deviceInfo" "firmwareVersion")) then false
  else if !(isStrO (getPath2 cfg "deviceInfo" "deviceId")) then false
  else if jsTruthyO (cfg.get? "profiles") then
    validateNewFormat cfg ((cfg.get? "profiles").getD .null)
  else
    validateLegacy cfg

/-! ## checkCompatibility (use-import-config.ts lines 280-518)

With no device connected the analysis returns a single device/error issue at
once; otherwise it concatenates the device-identity, firmware, settings-shape
and available-settings sections.  `CompatResult.firmwareQueried` records
whether `device.firmwareVersion()` was invoked. -/

/-- Result of a compatibility analysis. -/
structure CompatResult where
  issues : List CompatibilityIssue
  firmwareQueried : Bool
deriving Repr

/-- Display string for a possibly-`undefined` length, as interpolated by a
template literal. -/
def optNatStr : Option Nat → String
  | some n => toString n
  | none => "undefined"

/-- Key-count escalation check for one profile (lines 307-315): `keymap` is
truthy, its first layer is truthy, and that layer's length exceeds the
device's key count. -/
def keyCountExceeds (numKeys : Nat) (p : Json) : Option Nat :=
  match p.get? "keymap" with
  | some km =>
    if !km.truthy then none
    else
      match firstElem km with
      | some row =>
        if !row.truthy then none
        else
          match lenO row with
          | some rowLen => if rowLen > numKeys then some rowLen else none
          | none => none
      | none => none
  | none => none

/-- Scan of the profiles map for the key-count escalation, stopping at the
first offending profile (the source `break`s after pushing one error). -/
def firstKeyCountError (numKeys : Nat) (ps : Json) : List String → Option CompatibilityIssue
  | [] => none
  | k :: rest =>
    match ps.get? k with
    | some p =>
      match keyCountExceeds numKeys p with
      | some rowLen =>
        some { type := .device, severity := .error,
               message := s!"Profile {k}: Source device has more keys ({rowLen}) than current device ({numKeys})." }
      | none => firstKeyCountError numKeys ps rest
    | none => firstKeyCountError numKeys ps rest

/-- Device-identity section (lines 293-328): a name mismatch is a warning,
escalated to an error when the file encodes more keys than the device has. -/
def deviceSection (d : Device) (cfg : Json) : List CompatibilityIssue :=
  let nameO := getPath2 cfg "deviceInfo" "name"
  let mismatch : Bool :=
    match nameO with
    | some (.str t) => t != d.metadata.name
    | _ => true
  if !mismatch then []
  else
    let cfName := jsStringOfO nameO
    let dName := d.metadata.name
    { type := .device, severity := .warning,
      message := s!"Config file is for {cfName}, but current device is {dName}." } ::
    (match d.metadata.numKeys with
     | some nk =>
       if jsTruthyO (cfg.get? "profiles") then
         match firstKeyCountError nk ((cfg.get? "profiles").getD .null)
                 (((cfg.get? "profiles").getD .null).jsKeys) with
         | some i => [i]
         | none => []
       else
         match keyCountExceeds nk ((cfg.get? "settings").getD .null) with
         | some rowLen =>
           [{ type := .device, severity := .error,
              message := s!"Source device has more keys ({rowLen}) than current device ({nk})." }]
         | none => []
     | none => [])

/-- Parse of the document's firmware version (lines 336-344): coerce to a
string, take the major component of a dotted version, `parseInt` either way. -/
def parseConfigFirmware (cfg : Json) : Option Int :=
  let fwStr := jsStringOfO (getPath2 cfg "deviceInfo" "firmwareVersion")
  if fwStr.data.contains '.' then
    parseIntJS (fwStr.data.takeWhile (fun c => c != '.'))
  else
    parseIntJS fwStr.data

/-- Firmware section (lines 330-366): a query failure, an unparseable
document version, and a document targeting newer firmware each yield exactly
one firmware/warning. -/
def firmwareSection (d : Device) (cfg : Json) : List CompatibilityIssue :=
  match d.firmwareRes with
  | .error _ =>
    [{ type := .firmware, severity := .warning,
       message := "Failed to get firmware version from device." }]
  | .ok current =>
    let raw := jsStringOfO (getPath2 cfg "deviceInfo" "firmwareVersion")
    match parseConfigFirmware cfg with
    | none =>
      [{ type := .firmware, severity := .warning,
         message := s!"Invalid firmware version format in config file: \"{raw}\"." }]
    | some v =>
      if current < v then
        [{ type := .firmware, severity := .warning,
           message := s!"Config file is for firmware v{raw}, but current device has v{current}. Some features may not be available." }]
      else []

/-- Per-layer key-count scan (lines 388-399 / 461-473), stopping at the
first mismatching layer.  The JavaScript `configKeys !== deviceKeys` compares
possibly-`undefined` values, hence the `Option Nat` comparison. -/
def keyCountScan (msgHead : String) (numKeys : Option Nat) : List Json → Nat → List CompatibilityIssue
  | [], _ => []
  | row :: rest, i =>
    if lenO row != numKeys then
      let cks := optNatStr (lenO row)
      let dks := optNatStr numKeys
      let layer := i + 1
      [{ type := .settings, severity := .error,
         message := s!"{msgHead}Key count mismatch in layer {layer} (config file: {cks} keys, device: {dks} keys)." }]
    else
      keyCountScan msgHead numKeys rest (i + 1)

/-- Keymap-shape issues for one settings record (profile or legacy `settings`,
lines 376-402 / 449-475).  `msgHead` is the `Profile {id}: ` message prefix,
empty for the legacy branch. -/
def keymapShapeIssues (msgHead : String) (meta : DeviceMetadata) (p : Json) : List CompatibilityIssue :=
  match p.get? "keymap" with
  | some km =>
    if km.truthy && truthyNum meta.numLayers then
      let deviceLayers := meta.numLayers.getD 0
      if lenO km != some deviceLayers then
        let rows := optNatStr (lenO km)
        [{ type := .settings, severity := .error,
           message := s!"{msgHead}Keymap layer count mismatch (config file: {rows} layers, device: {deviceLayers} layers)." }]
      else
        keyCountScan msgHead meta.numKeys (jsArrElems km) 0
    else []
  | none => []

/-- Size of an advanced-key table (lines 406-408):
`Array.isArray(x) ? x.length : Object.keys(x).length`. -/
def advCount : Json → Nat
  | .arr elems => elems.length
  | .obj fields => fields.length
  | .str s => s.data.length
  | _ => 0

/-- Advanced-key capacity issues for one settings record (lines 405-417 /
478-490): a truthy table larger than a truthy `numAdvancedKeys` is a
warning. -/
def advancedKeysIssues (msgHead : String) (meta : DeviceMetadata) (p : Json) : List CompatibilityIssue :=
  match p.get? "advancedKeys" with
  | some adv =>
    if adv.truthy && truthyNum meta.numAdvancedKeys then
      let cap := meta.numAdvancedKeys.getD 0
      let sz := advCount adv
      if sz > cap then
        [{ type := .settings, severity := .warning,
           message := s!"{msgHead}Advanced keys count exceeds device capacity (config file: {sz}, device: {cap})." }]
      else []
    else []
  | none => []

/-- Settings-shape issues for one profile of a new-format document. -/
def profileSettingsIssues (meta : DeviceMetadata) (pid : String) (p : Json) : List CompatibilityIssue :=
  keymapShapeIssues s!"Profile {pid}: " meta p ++ advancedKeysIssues s!"Profile {pid}: " meta p

/-- Settings section for new-format documents (lines 370-445): per-profile
shape issues, the profile-count warning, and the emptiness error. -/
def settingsSectionNew (meta : DeviceMetadata) (ps cfg : Json) : List CompatibilityIssue :=
  (ps.jsKeys.flatMap (fun k =>
     match ps.get? k with
     | some p => profileSettingsIssues meta k p
     | none => []))
  ++ (let cnt := ps.jsKeys.length
      if cnt > 5 then
        [{ type := .settings, severity := .warning,
           message := s!"Config file contains {cnt} profiles, but device supports only 5 profiles (0-4)." }]
      else [])
  ++ (let hasAny := ps.jsKeys.any (fun k =>
        match ps.get? k with
        | some p => !p.jsKeys.isEmpty
        | none => false)
      if !hasAny && !(jsTruthyO (cfg.get? "settings")
                      && jsTruthyO (getPath2 cfg "settings" "calibration")) then
        [{ type := .settings, severity := .error,
           message := "Config file contains no valid settings to import." }]
      else [])

/-- Settings section for legacy documents (lines 447-491). -/
def settingsSectionLegacy (meta : DeviceMetadata) (cfg : Json) : List CompatibilityIssue :=
  keymapShapeIssues "" meta ((cfg.get? "settings").getD .null)
  ++ advancedKeysIssues "" meta ((cfg.get? "settings").getD .null)

/-- Settings available for import (lines 494-507): new-format documents offer
`profiles` plus a truthy calibration; legacy documents offer the keys of
`settings` (all of whose values are defined after `JSON.parse`). -/
def availableSettingsList (cfg : Json) : List String :=
  if jsTruthyO (cfg.get? "profiles") then
    "profiles" ::
    (if jsTruthyO (cfg.get? "settings")
        && jsTruthyO (getPath2 cfg "settings" "calibration") then
       ["calibration"]
     else [])
  else
    ((cfg.get? "settings").getD .null).jsKeys

/-- Compatibility analysis of a parsed document against the connected device
(or `none` when no device is connected). -/
def checkCompatibility (device : Option Device) (cfg : Json) : CompatResult :=
  match device with
  | none =>
    { issues := [{ type := .device, severity := .error, message := "No device connected." }],
      firmwareQueried := false }
  | some d =>
    { issues :=
        deviceSection d cfg
        ++ firmwareSection d cfg
        ++ (if jsTruthyO (cfg.get? "profiles") then
              settingsSectionNew d.metadata ((cfg.get? "profiles").getD .null) cfg
            else
              settingsSectionLegacy d.metadata cfg)
        ++ (if (availableSettingsList cfg).isEmpty then
              [{ type := .settings, severity := .error,
                 message := "Config file contains no valid settings to import." }]
            else []),
      firmwareQueried := true }

/-! ## applySettings (use-import-config.ts lines 524-869)

Device writes are recorded as an ordered log; a write's own failure is caught
by the source at the innermost level and reported only as a warning toast, so
it affects no modelled state and there is no write-failure oracle.  The two
ways an apply-unit can throw in the source — reading a property of the
`undefined` result of `configFile.profiles[profileNum]`, or of an absent
`configFile.settings` — are modelled by the unit returning `threw = true`;
the per-setting `try`/`catch` then skips the `completedSteps` increment and
moves on, exactly as lines 820-829 do. -/

/-- One device write, with the arguments the source passes. -/
inductive WriteCall where
  | setKeymap (profile : Int) (layer : Nat) (offset : Nat) (row : Json)
  | setActuationMap (profile : Int) (offset : Nat) (data : Json)
  | setAdvancedKeys (profile : Int) (offset : Nat) (data : Json)
  | setTickRate (profile : Int) (value : Json)
  | setCalibration (data : Json)
deriving Repr

/-- Mutable state threaded through the apply loop: the write log, the
`completedSteps` counter, and the `{completed, total}` payloads of the
post-unit progress toasts (line 811). -/
structure ApplyState where
  writes : List WriteCall
  completed : Nat
  progress : List (Nat × Nat)
deriving Repr

/-- Reading of the cooperative cancellation flag when `writesSoFar` device
writes have been attempted: the flag is up once the threshold is reached. -/
def cancelRaised (cancelAfter : Option Nat) (writesSoFar : Nat) : Bool :=
  match cancelAfter with
  | some t => t ≤ writesSoFar
  | none => false

/-- Append one attempted device write to the log. -/
def pushWrite (st : ApplyState) (w : WriteCall) : ApplyState :=
  { st with writes := st.writes ++ [w] }

/-- Keymap layer loop (lines 616-635 / 711-730): one `setKeymap` per layer,
with the cancellation flag checked before each layer (`break` on cancel). -/
def applyKeymapLayers (cancelAfter : Option Nat) (profile : Int) :
    List Json → Nat → ApplyState → ApplyState
  | [], _, st => st
  | row :: rest, layer, st =>
    if cancelRaised cancelAfter st.writes.length then st
    else
      applyKeymapLayers cancelAfter profile rest (layer + 1)
        (pushWrite st (.setKeymap profile layer 0 row))

/-- Field application for one profile of a new-format document (lines
614-689): keymap layers, then actuation map, advanced keys (the complete
table, unmodified), and tick rate. -/
def applyProfileFields (cancelAfter : Option Nat) (pnum : Int) (p : Json)
    (st : ApplyState) : ApplyState :=
  let st :=
    match p.get? "keymap" with
    | some km =>
      if km.truthy then applyKeymapLayers cancelAfter pnum (jsArrElems km) 0 st else st
    | none => st
  let st :=
    match p.get? "actuationMap" with
    | some am => if am.truthy then pushWrite st (.setActuationMap pnum 0 am) else st
    | none => st
  let st :=
    match p.get? "advancedKeys" with
    | some adv => if adv.truthy then pushWrite st (.setAdvancedKeys pnum 0 adv) else st
    | none => st
  match p.get? "tickRate" with
  | some tr => pushWrite st (.setTickRate pnum tr)
  | none => st

/-- String form of a profile number used to index `configFile.profiles`. -/
def intKeyString (n : Int) : String := toString n

/-- Loop over the profile keys of the `profiles` apply-unit (lines 603-690).
A key that does not survive `parseInt` + re-indexing makes
`configFile.profiles[profileNum]` come back `undefined` and the subsequent
property read throw, aborting the rest of the unit. -/
def applyProfilesLoop (cancelAfter : Option Nat) (ps : Json) :
    List String → ApplyState → ApplyState × Bool
  | [], st => (st, false)
  | k :: rest, st =>
    match parseIntJS k.data with
    | none => (st, true)
    | some pnum =>
      match ps.get? (intKeyString pnum) with
      | none => (st, true)
      | some p => applyProfilesLoop cancelAfter ps rest (applyProfileFields cancelAfter pnum p st)

/-- The `profiles` apply-unit of a new-format document (lines 601-704): every
profile in turn, then the global calibration. -/
def applyProfilesUnit (cancelAfter : Option Nat) (cfg ps : Json)
    (st : ApplyState) : ApplyState × Bool :=
  let r := applyProfilesLoop cancelAfter ps ps.jsKeys st
  if r.2 then r
  else if jsTruthyO (cfg.get? "settings")
      && jsTruthyO (getPath2 cfg "settings" "calibration") then
    (pushWrite r.1 (.setCalibration ((getPath2 cfg "settings" "calibration").getD .null)), false)
  else (r.1, false)

/-- Reading `configFile.settings.<field>`: `none` models the `TypeError`
thrown when `settings` itself is absent or `null`; `some v` is the (possibly
`undefined`) field value. -/
def settingsAccess (cfg : Json) (field : String) : Option (Option Json) :=
  match cfg.get? "settings" with
  | none => none
  | some .null => none
  | some s => some (s.get? field)

/-- One legacy-format apply-unit — the `switch (setting)` of lines 706-804 —
against the resolved current profile.  Each case reads
`configFile.settings.<field>`, which throws when `settings` is absent; the
`default` case touches nothing. -/
def applyLegacyUnit (cancelAfter : Option Nat) (currentProfile : Int)
    (cfg : Json) (setting : String) (st : ApplyState) : ApplyState × Bool :=
  if setting == "keymap" then
    match settingsAccess cfg "keymap" with
    | none => (st, true)
    | some none => (st, false)
    | some (some km) =>
      (if km.truthy then applyKeymapLayers cancelAfter currentProfile (jsArrElems km) 0 st
       else st, false)
  else if setting == "actuationMap" then
    match settingsAccess cfg "actuationMap" with
    | none => (st, true)
    | some none => (st, false)
    | some (some am) =>
      (if am.truthy then pushWrite st (.setActuationMap currentProfile 0 am) else st, false)
  else if setting == "advancedKeys" then
    match settingsAccess cfg "advancedKeys" with
    | none => (st, true)
    | some none => (st, false)
    | some (some adv) =>
      (if adv.truthy then pushWrite st (.setAdvancedKeys currentProfile 0 adv) else st, false)
  else if setting == "tickRate" then
    match settingsAccess cfg "tickRate" with
    | none => (st, true)
    | some none => (st, false)
    | some (some tr) => (pushWrite st (.setTickRate currentProfile tr), false)
  else if setting == "calibration" then
    match settingsAccess cfg "calibration" with
    | none => (st, true)
    | some none => (st, false)
    | some (some c) =>
      (if c.truthy then pushWrite st (.setCalibration c) else st, false)
  else (st, false)

/-- Main loop over the selected settings (lines 582-830): the cancellation
flag is checked before each apply-unit; a unit that did not throw increments
`completedSteps` and emits a `{completed, total}` progress event.  The
returned flag is true when the loop stopped at a unit-boundary cancellation
check (lines 584-590). -/
def applySettingsLoop (cancelAfter : Option Nat) (isNewFormat : Bool)
    (cfg : Json) (currentProfile : Int) (total : Nat) :
    List String → ApplyState → ApplyState × Bool
  | [], st => (st, false)
  | setting :: rest, st =>
    if cancelRaised cancelAfter st.writes.length then (st, true)
    else
      let r :=
        if isNewFormat && setting == "profiles" then
          applyProfilesUnit cancelAfter cfg ((cfg.get? "profiles").getD .null) st
        else
          applyLegacyUnit cancelAfter currentProfile cfg setting st
      let st2 :=
        if r.2 then r.1
        else
          { r.1 with completed := r.1.completed + 1,
                     progress := r.1.progress ++ [(r.1.completed + 1, total)] }
      applySettingsLoop cancelAfter isNewFormat cfg currentProfile total rest st2

/-- Terminal outcome of the apply pipeline.  The source signals `noDevice`
and `cancelled` by returning `false` with distinct toasts; `completed` is the
line 841-847 exit. -/
inductive ApplyOutcome where
  | noDevice
  | cancelled
  | completed
deriving Repr, DecidableEq

/-- Observable result of `applySettings`: terminal outcome, returned boolean,
write log, step counters and progress events. -/
structure ApplyResult where
  outcome : ApplyOutcome
  success : Bool
  writes : List WriteCall
  completedSteps : Nat
  totalSteps : Nat
  progress : List (Nat × Nat)
deriving Repr

/-- Resolution of the current profile (lines 555-566): the device's answer,
defaulting to profile 0 when the query fails. -/
def resolvedProfile (d : Device) : Int :=
  match d.getProfileRes with
  | .ok p => p
  | .error _ => 0

/-- A profile key of the `profiles` map survives the apply loop's
`parseInt` + re-indexing round trip. -/
def profileKeyOk (ps : Json) (k : String) : Bool :=
  match parseIntJS k.data with
  | some n => (ps.get? (intKeyString n)).isSome
  | none => false

/-- Whether one legacy apply-unit throws: only the five known cases read
`configFile.settings`, and they throw exactly when that read does. -/
def legacyUnitThrows (cfg : Json) (setting : String) : Bool :=
  if setting == "keymap" || setting == "actuationMap" || setting == "advancedKeys"
     || setting == "tickRate" || setting == "calibration" then
    (settingsAccess cfg setting).isNone
  else false

/-- Whether the apply-unit for `setting` throws (and hence skips its
`completedSteps` increment): the `profiles` unit throws when some profile key
does not survive re-indexing; the remaining units are the legacy switch. -/
def unitThrows (isNewFormat : Bool) (cfg : Json) (setting : String) : Bool :=
  if isNewFormat && setting == "profiles" then
    !(((cfg.get? "profiles").getD .null).jsKeys.all
        (profileKeyOk ((cfg.get? "profiles").getD .null)))
  else legacyUnitThrows cfg setting

/-- The sequence of `{completed, total}` progress events emitted by `n`
consecutive completed units starting from the counter value `base`. -/
def progressRamp (base total : Nat) : Nat → List (Nat × Nat)
  | 0 => []
  | Nat.succ m => (base + 1, total) :: progressRamp (base + 1) total m

/-- Whether a device write addresses the given profile (calibration is
device-global and addresses none). -/
def writeTargetsProfile (w : WriteCall) (p : Int) : Bool :=
  match w with
  | .setKeymap q _ _ _ => q == p
  | .setActuationMap q _ _ => q == p
  | .setAdvancedKeys q _ _ => q == p
  | .setTickRate q _ => q == p
  | .setCalibration _ => true

/-- All writes of a log address the given profile (or are device-global). -/
def allTargets (l : List WriteCall) (p : Int) : Bool :=
  l.all (fun w => writeTargetsProfile w p)

/-- Apply pipeline (lines 524-869): resolve the current profile (defaulting
to 0 on a failed query), run the per-setting loop, and report `Cancelled`
when the flag was up at a unit boundary or at the final check of line 833;
otherwise the returned boolean is `completedSteps > 0`. -/
def applySettings (device : Option Device) (cancelAfter : Option Nat)
    (cfg : Json) (selectedSettings : List String) : ApplyResult :=
  match device with
  | none =>
    { outcome := .noDevice, success := false, writes := [],
      completedSteps := 0, totalSteps := 0, progress := [] }
  | some d =>
    let totalSteps := selectedSettings.length
    let currentProfile : Int := resolvedProfile d
    let isNewFormat := (cfg.get? "profiles").isSome
    let r := applySettingsLoop cancelAfter isNewFormat cfg currentProfile totalSteps
               selectedSettings ⟨[], 0, []⟩
    if r.2 then
      { outcome := .cancelled, success := false, writes := r.1.writes,
        completedSteps := r.1.completed, totalSteps := totalSteps, progress := r.1.progress }
    else if cancelRaised cancelAfter r.1.writes.length then
      { outcome := .cancelled, success := false, writes := r.1.writes,
        completedSteps := r.1.completed, totalSteps := totalSteps, progress := r.1.progress }
    else
      { outcome := .completed, success := r.1.completed > 0, writes := r.1.writes,
        completedSteps := r.1.completed, totalSteps := totalSteps, progress := r.1.progress }

/-! ## Compatibility dialog gating (compatibility-dialog.tsx) -/

/-- Check for error-severity issues (compatibility-dialog.tsx line 149). -/
def hasErrors (issues : List CompatibilityIssue) : Bool :=
  issues.any (fun issue => issue.severity == .error)

/-- Disabled state of the dialog's "Import Selected" button (line 368):
`hasErrors || selectedSettings.length === 0 || isApplying`. -/
def continueDisabled (issues : List CompatibilityIssue)
    (selectedSettings : List String) (isApplying : Bool) : Bool :=
  hasErrors issues || selectedSettings.isEmpty || isApplying

/-- The dialog's continue action: a disabled button cannot fire `onContinue`,
and an enabled one runs `handleCompatibilityContinue`, which applies the
selected settings to the pending document (use-import-config.ts lines
871-892). -/
def dialogContinue (device : Option Device) (cancelAfter : Option Nat)
    (cfg : Json) (issues : List CompatibilityIssue)
    (selectedSettings : List String) (isApplying : Bool) : Option ApplyResult :=
  if continueDisabled issues selectedSettings isApplying then none
  else some (applySettings device cancelAfter cfg selectedSettings)

/-! ## importConfig (use-import-config.ts lines 921-1066) -/

/-- A file handed to `importConfig`: its name, byte size, whether
`file.text()` succeeds, and the outcome of `JSON.parse` on its contents. -/
structure ImportFile where
  name : String
  size : Nat
  readOk : Bool
  parsed : Except Unit Json

/-- Terminal outcome of one `importConfig` call. -/
inductive ImportOutcome where
  | fileTooLarge
  | wrongExtension
  | readError
  | parseError
  | invalidConfig
  | dialogShown (issues : List CompatibilityIssue)
  | applied (r : ApplyResult)
deriving Repr

/-- Observable result of `importConfig`: outcome, returned boolean, whether
`JSON.parse` was reached, whether any device query was made, and the device
writes performed. -/
structure ImportResult where
  outcome : ImportOutcome
  success : Bool
  parseAttempted : Bool
  deviceContacted : Bool
  writes : List WriteCall
deriving Repr

/-- Settings auto-selected when the compatibility check found no issues
(lines 1034-1049). -/
def allSettingsFor (cfg : Json) : List String :=
  if jsTruthyO (cfg.get? "profiles") then
    "profiles" ::
    (if jsTruthyO (cfg.get? "settings")
        && jsTruthyO (getPath2 cfg "settings" "calibration") then
       ["calibration"]
     else [])
  else
    ["keymap", "actuationMap", "advancedKeys", "tickRate", "calibration"].filter
      (fun k => (((cfg.get? "settings").getD .null).get? k).isSome)

/-- Import flow: 5 MiB size cap, `.json` extension check, file read,
`JSON.parse`, `validateConfigFile`, `checkCompatibility`; any issue list
pauses for the compatibility dialog (returning `true`), an empty one
auto-applies every available setting. -/
def importConfig (device : Option Device) (cancelAfter : Option Nat)
    (file : ImportFile) : ImportResult :=
  if file.size > 5 * 1024 * 1024 then
    { outcome := .fileTooLarge, success := false, parseAttempted := false,
      deviceContacted := false, writes := [] }
  else if !endsWithJson file.name then
    { outcome := .wrongExtension, success := false, parseAttempted := false,
      deviceContacted := false, writes := [] }
  else if !file.readOk then
    { outcome := .readError, success := false, parseAttempted := false,
      deviceContacted := false, writes := [] }
  else
    match file.parsed with
    | .error _ =>
      { outcome := .parseError, success := false, parseAttempted := true,
        deviceContacted := false, writes := [] }
    | .ok cfg =>
      if !validateConfigFile cfg then
        { outcome := .invalidConfig, success := false, parseAttempted := true,
          deviceContacted := false, writes := [] }
      else
        let compat := checkCompatibility device cfg
        if !compat.issues.isEmpty then
          { outcome := .dialogShown compat.issues, success := true,
            parseAttempted := true, deviceContacted := compat.firmwareQueried,
            writes := [] }
        else
          let r := applySettings device cancelAfter cfg (allSettingsFor cfg)
          { outcome := .applied r, success := r.success, parseAttempted := true,
            deviceContacted := true, writes := r.writes }

/-! ## Export (useExportConfig: notifications.ts lines 1240-1532)

The export hook reads every profile 0-4 and the global calibration from the
device and assembles a `ConfigFile` object.  Device reads are oracles on an
`ExportDevice`. -/

/-- The connected device as seen by the export path: identity plus oracles
for each fallible read. -/
structure ExportDevice where
  name : String
  devId : String
  getProfileRes : Except Unit Int
  firmwareRes : Except Unit Int
  getKeymapRes : Nat → Except Unit Json
  getActuationMapRes : Nat → Except Unit Json
  getAdvancedKeysRes : Nat → Except Unit Json
  getTickRateRes : Nat → Except Unit Json
  getCalibrationRes : Except Unit Json

/-- Firmware read with error handling (lines 1274-1281): a failed query is
caught inside this helper and yields `0`.  Because this helper never throws,
the `catch` in `exportConfig` (lines 1336-1344) that would substitute the
string `"unknown"` is unreachable. -/
def getFirmwareVersion (d : ExportDevice) : Int :=
  match d.firmwareRes with
  | .ok v => v
  | .error _ => 0

/-- Data fetched for one profile when every read succeeded. -/
structure FetchedProfile where
  keymap : Json
  actuationMap : Json
  advancedKeys : Json
  tickRate : Json
deriving Repr

/-- Profile fetch (lines 1284-1302): the four reads run sequentially inside a
single `try`; the first failure aborts the whole profile and yields `null`. -/
def fetchProfileData (d : ExportDevice) (profileId : Nat) : Option FetchedProfile :=
  match d.getKeymapRes profileId with
  | .error _ => none
  | .ok km =>
    match d.getActuationMapRes profileId with
    | .error _ => none
    | .ok am =>
      match d.getAdvancedKeysRes profileId with
      | .error _ => none
      | .ok ak =>
        match d.getTickRateRes profileId with
        | .error _ => none
        | .ok tr => some { keymap := km, actuationMap := am, advancedKeys := ak, tickRate := tr }

/-- One profile entry of the exported document. -/
structure ExportedProfile where
  keymap : Option Json
  actuationMap : Option Json
  advancedKeys : Option Json
  tickRate : Option Json
deriving Repr

/-- Field inclusion for a fetched profile (lines 1383-1389): truthy values
only, except `tickRate` which is kept whenever it is defined. -/
def buildProfileEntry (fp : FetchedProfile) : ExportedProfile :=
  { keymap := if fp.keymap.truthy then some fp.keymap else none,
    actuationMap := if fp.actuationMap.truthy then some fp.actuationMap else none,
    advancedKeys := if fp.advancedKeys.truthy then some fp.advancedKeys else none,
    tickRate := some fp.tickRate }

/-- The `profilesData` map after the profile loop of lines 1372-1399: one
entry per profile 0-4 whose fetch succeeded. -/
def exportProfiles (d : ExportDevice) : List (Nat × ExportedProfile) :=
  (List.range 5).filterMap (fun pid =>
    (fetchProfileData d pid).map (fun fp => (pid, buildProfileEntry fp)))

/-- Number of populated fields of an exported profile
(`Object.keys(profile).length`). -/
def profileFieldCount (p : ExportedProfile) : Nat :=
  (if p.keymap.isSome then 1 else 0) + (if p.actuationMap.isSome then 1 else 0)
  + (if p.advancedKeys.isSome then 1 else 0) + (if p.tickRate.isSome then 1 else 0)

/-- The document assembled by a successful export (lines 1436-1448). -/
structure ExportedConfig where
  version : String
  deviceName : String
  firmwareVersion : String
  deviceId : String
  profiles : List (Nat × ExportedProfile)
  calibration : Option Json
deriving Repr

/-- Terminal outcome of one `exportConfig` call. -/
inductive ExportResult where
  | noDevice
  | nothingToExport
  | exported (cfg : ExportedConfig)
deriving Repr

/-- Export flow (lines 1305-1526): fetch firmware version and all profiles
and the calibration with per-item tolerance; abort only when nothing at all
was retrieved; otherwise assemble the document.  (The download itself is
browser I/O and is not modelled.) -/
def exportConfig (device : Option ExportDevice) : ExportResult :=
  match device with
  | none => .noDevice
  | some d =>
    let firmwareVersion : Int := getFirmwareVersion d
    let profilesData := exportProfiles d
    let calibrationData : Option Json :=
      match d.getCalibrationRes with
      | .ok c => some c
      | .error _ => none
    let calibTruthy := jsTruthyO calibrationData
    let hasProfileData :=
      !profilesData.isEmpty && profilesData.any (fun e => profileFieldCount e.2 > 0)
    if !hasProfileData && !calibTruthy then .nothingToExport
    else
      .exported
        { version := "1.0",
          deviceName := if d.name.data.isEmpty then "Unknown Device" else d.name,
          firmwareVersion := toString firmwareVersion,
          deviceId := if d.devId.data.isEmpty then "unknown" else d.devId,
          profiles := profilesData,
          calibration := if calibTruthy then calibrationData else none }

/-- Firmware-version string of an export outcome, when one was produced. -/
def exportedFirmware : ExportResult → Option String
  | .exported cfg => some cfg.firmwareVersion
  | _ => none

/-! ## Concrete fixtures used by the theorems below -/

/-- Valid legacy-generation document with a single `tickRate` setting. -/
def cfgLegacy : Json := .obj [
  ("version", .str "1.0"), ("timestamp", .str "t"),
  ("deviceInfo", .obj [("name", .str "HE60"), ("firmwareVersion", .str "1"),
                       ("deviceId", .str "d")]),
  ("settings", .obj [("tickRate", .num 5)])]

/-- Profile record with a one-layer, one-key keymap and a tick rate. -/
def prof1 : Json := .obj [("keymap", .arr [.arr [.num 1]]), ("tickRate", .num 5)]

/-- Valid current-generation document with three profiles 0-2. -/
def cfg3 : Json := .obj [
  ("version", .str "1.0"), ("timestamp", .str "t"),
  ("deviceInfo", .obj [("name", .str "HE60"), ("firmwareVersion", .str "1"),
                       ("deviceId", .str "d")]),
  ("profiles", .obj [("0", prof1), ("1", prof1), ("2", prof1)])]

/-- One-key, one-layer device fully compatible with `cfg3`. -/
def devC2 : Device where
  metadata := { name := "HE60", numKeys := some 1, numLayers := some 1,
                numAdvancedKeys := some 32 }
  firmwareRes := .ok 1
  getProfileRes := .ok 0

/-- Current-generation document whose only profile carries a three-entry
advanced-key table. -/
def cfgAdv : Json := .obj [
  ("version", .str "1.0"), ("timestamp", .str "t"),
  ("deviceInfo", .obj [("name", .str "HE60"), ("firmwareVersion", .str "1"),
                       ("deviceId", .str "d")]),
  ("profiles", .obj [("0", .obj [("advancedKeys", .arr [.num 1, .num 2, .num 3])])])]

/-- Device with capacity for only two advanced keys. -/
def devAdv : Device where
  metadata := { name := "HE60", numKeys := some 1, numLayers := some 1,
                numAdvancedKeys := some 2 }
  firmwareRes := .ok 1
  getProfileRes := .ok 0

/-- Valid legacy-generation document with a one-layer keymap. -/
def cfgLegacyKm : Json := .obj [
  ("version", .str "1.0"), ("timestamp", .str "t"),
  ("deviceInfo", .obj [("name", .str "HE60"), ("firmwareVersion", .str "1"),
                       ("deviceId", .str "d")]),
  ("settings", .obj [("keymap", .arr [.arr [.num 1]])])]

/-- Like `cfgLegacy` but with the dotted firmware version `"2.1.0"`. -/
def cfgFw21 : Json := .obj [
  ("version", .str "1.0"), ("timestamp", .str "t"),
  ("deviceInfo", .obj [("name", .str "HE60"), ("firmwareVersion", .str "2.1.0"),
                       ("deviceId", .str "d")]),
  ("settings", .obj [("tickRate", .num 5)])]

/-- Like `cfgLegacy` but with an unparseable firmware version. -/
def cfgFwBad : Json := .obj [
  ("version", .str "1.0"), ("timestamp", .str "t"),
  ("deviceInfo", .obj [("name", .str "HE60"), ("firmwareVersion", .str "abc"),
                       ("deviceId", .str "d")]),
  ("settings", .obj [("tickRate", .num 5)])]

/-- Device reporting firmware version 2. -/
def devFw2 : Device where
  metadata := { name := "HE60", numKeys := some 1, numLayers := some 1,
                numAdvancedKeys := some 32 }
  firmwareRes := .ok 2
  getProfileRes := .ok 0

/-- Device whose firmware query fails. -/
def devFwErr : Device where
  metadata := { name := "HE60", numKeys := some 1, numLayers := some 1,
                numAdvancedKeys := some 32 }
  firmwareRes := .error ()
  getProfileRes := .ok 0

/-- Export device for which exactly one field fetch of profile 0 (the
actuation map) fails, every other profile fails at its first fetch, and the
calibration read succeeds. -/
def devC4 : ExportDevice where
  name := "HE60"
  devId := "d"
  getProfileRes := .ok 0
  firmwareRes := .ok 1
  getKeymapRes := fun pid => if pid = 0 then .ok (.arr [.arr [.num 1]]) else .error ()
  getActuationMapRes := fun _ => .error ()
  getAdvancedKeysRes := fun _ => .ok (.arr [.num 2])
  getTickRateRes := fun _ => .ok (.num 1)
  getCalibrationRes := .ok (.arr [.num 100])

/-- Export device whose firmware query fails while every profile fetch
succeeds. -/
def devC6 : ExportDevice where
  name := "HE60"
  devId := "d"
  getProfileRes := .ok 0
  firmwareRes := .error ()
  getKeymapRes := fun _ => .ok (.arr [.arr [.num 1]])
  getActuationMapRes := fun _ => .ok (.arr [.num 10])
  getAdvancedKeysRes := fun _ => .ok (.arr [.num 2])
  getTickRateRes := fun _ => .ok (.num 1)
  getCalibrationRes := .ok (.arr [.num 100])

/-! ## Helper lemmas

State-accounting facts about the apply pipeline: apply-units touch only the
write log (never the `completedSteps` counter or the progress list, which the
main loop alone updates), the `profiles` unit throws exactly when some
profile key fails re-indexing, a legacy unit throws exactly when it reads an
absent `settings`, and with no cancellation the main loop completes one unit
per selected setting that does not throw. -/

theorem cancelRaised_none (n : Nat) : cancelRaised none n = false := rfl

theorem applyKeymapLayers_completed (c : Option Nat) (p : Int) :
    ∀ (rows : List Json) (layer : Nat) (st : ApplyState),
      (applyKeymapLayers c p rows layer st).completed = st.completed := by
  intro rows
  induction rows with
  | nil => intro layer st; rfl
  | cons r rest ih =>
    intro layer st
    simp only [applyKeymapLayers]
    split
    · rfl
    · rw [ih]; rfl

theorem applyKeymapLayers_progress (c : Option Nat) (p : Int) :
    ∀ (rows : List Json) (layer : Nat) (st : ApplyState),
      (applyKeymapLayers c p rows layer st).progress = st.progress := by
  intro rows
  induction rows with
  | nil => intro layer st; rfl
  | cons r rest ih =>
    intro layer st
    simp only [applyKeymapLayers]
    split
    · rfl
    · rw [ih]; rfl

theorem applyProfileFields_completed (c : Option Nat) (pnum : Int) (p : Json)
    (st : ApplyState) :
    (applyProfileFields c pnum p st).completed = st.completed := by
  simp only [applyProfileFields]
  repeat' split
  all_goals simp [applyKeymapLayers_completed, pushWrite]

theorem applyProfileFields_progress (c : Option Nat) (pnum : Int) (p : Json)
    (st : ApplyState) :
    (applyProfileFields c pnum p st).progress = st.progress := by
  simp only [applyProfileFields]
  repeat' split
  all_goals simp [applyKeymapLayers_progress, pushWrite]

theorem applyProfilesLoop_spec (c : Option Nat) (ps : Json) :
    ∀ (ks : List String) (st : ApplyState),
      (applyProfilesLoop c ps ks st).1.completed = st.completed
      ∧ (applyProfilesLoop c ps ks st).1.progress = st.progress
      ∧ (applyProfilesLoop c ps ks st).2 = !ks.all (profileKeyOk ps) := by
  intro ks
  induction ks with
  | nil => intro st; exact ⟨rfl, rfl, rfl⟩
  | cons k rest ih =>
    intro st
    simp only [applyProfilesLoop, profileKeyOk, List.all_cons]
    cases hk : parseIntJS k.data with
    | none => simp [hk]
    | some n =>
      cases hg : ps.get? (intKeyString n) with
      | none => simp [hk, hg]
      | some p =>
        have := ih (applyProfileFields c n p st)
        simp [hk, hg, this.1, this.2.1, this.2.2,
              applyProfileFields_completed, applyProfileFields_progress]

theorem applyProfilesUnit_spec (c : Option Nat) (cfg ps : Json) (st : ApplyState) :
    (applyProfilesUnit c cfg ps st).1.completed = st.completed
    ∧ (applyProfilesUnit c cfg ps st).1.progress = st.progress
    ∧ (applyProfilesUnit c cfg ps st).2 = !ps.jsKeys.all (profileKeyOk ps) := by
  have h := applyProfilesLoop_spec c ps ps.jsKeys st
  simp only [applyProfilesUnit]
  split
  · exact h
  · split
    · exact ⟨by simp [pushWrite, h.1], by simp [pushWrite, h.2.1], by simp_all⟩
    · exact ⟨h.1, h.2.1, by simp_all⟩

theorem applyLegacyUnit_spec (c : Option Nat) (cur : Int) (cfg : Json)
    (setting : String) (st : ApplyState) :
    (applyLegacyUnit c cur cfg setting st).1.completed = st.completed
    ∧ (applyLegacyUnit c cur cfg setting st).1.progress = st.progress
    ∧ (applyLegacyUnit c cur cfg setting st).2 = legacyUnitThrows cfg setting := by
  simp only [applyLegacyUnit, legacyUnitThrows]
  repeat' split
  all_goals
    simp_all [applyKeymapLayers_completed, applyKeymapLayers_progress, pushWrite,
              Option.isNone]

theorem applySettingsLoop_none_spec (isNew : Bool) (cfg : Json) (cur : Int)
    (total : Nat) :
    ∀ (sel : List String) (st : ApplyState),
      (applySettingsLoop none isNew cfg cur total sel st).2 = false
      ∧ (applySettingsLoop none isNew cfg cur total sel st).1.completed
          = st.completed + (sel.filter (fun s => !unitThrows isNew cfg s)).length
      ∧ (applySettingsLoop none isNew cfg cur total sel st).1.progress
          = st.progress ++ progressRamp st.completed total
              (sel.filter (fun s => !unitThrows isNew cfg s)).length := by
  intro sel
  induction sel with
  | nil => intro st; exact ⟨rfl, by simp [applySettingsLoop, progressRamp],
                            by simp [applySettingsLoop, progressRamp]⟩
  | cons s rest ih =>
    intro st
    simp only [applySettingsLoop, cancelRaised_none, Bool.false_eq_true, if_false,
               List.filter_cons]
    by_cases hp : (isNew && s == "profiles") = true
    · have hu := applyProfilesUnit_spec none cfg ((cfg.get? "profiles").getD .null) st
      have hut : (applyProfilesUnit none cfg ((cfg.get? "profiles").getD .null) st).2
          = unitThrows isNew cfg s := by
        rw [hu.2.2]; simp [unitThrows, hp]
      simp only [hp, if_true]
      rcases Bool.eq_false_or_eq_true
          (applyProfilesUnit none cfg ((cfg.get? "profiles").getD .null) st).2 with h2 | h2
      · have hf : unitThrows isNew cfg s = true := by rw [← hut]; exact h2
        simp only [h2, if_true, hf, Bool.not_true, Bool.false_eq_true, if_false]
        have hrec := ih (applyProfilesUnit none cfg ((cfg.get? "profiles").getD .null) st).1
        refine ⟨hrec.1, ?_, ?_⟩
        · rw [hrec.2.1, hu.1]
        · rw [hrec.2.2, hu.1, hu.2.1]
      · have hf : unitThrows isNew cfg s = false := by rw [← hut]; exact h2
        simp only [h2, Bool.false_eq_true, if_false, hf, Bool.not_false, if_true,
                   List.length_cons]
        set st1 := (applyProfilesUnit none cfg ((cfg.get? "profiles").getD .null) st).1
        have hrec := ih { st1 with completed := st1.completed + 1,
                                   progress := st1.progress ++ [(st1.completed + 1, total)] }
        refine ⟨hrec.1, ?_, ?_⟩
        · rw [hrec.2.1]; simp only [hu.1]; omega
        · rw [hrec.2.2]
          simp only [hu.1, hu.2.1, progressRamp, List.append_assoc, List.singleton_append]
    · have hu := applyLegacyUnit_spec none cur cfg s st
      have hut : (applyLegacyUnit none cur cfg s st).2 = unitThrows isNew cfg s := by
        rw [hu.2.2]; simp [unitThrows, hp]
      simp only [hp, Bool.false_eq_true, if_false]
      rcases Bool.eq_false_or_eq_true (applyLegacyUnit none cur cfg s st).2 with h2 | h2
      · have hf : unitThrows isNew cfg s = true := by rw [← hut]; exact h2
        simp only [h2, if_true, hf, Bool.not_true, Bool.false_eq_true, if_false]
        have hrec := ih (applyLegacyUnit none cur cfg s st).1
        refine ⟨hrec.1, ?_, ?_⟩
        · rw [hrec.2.1, hu.1]
        · rw [hrec.2.2, hu.1, hu.2.1]
      · have hf : unitThrows isNew cfg s = false := by rw [← hut]; exact h2
        simp only [h2, Bool.false_eq_true, if_false, hf, Bool.not_false, if_true,
                   List.length_cons]
        set st1 := (applyLegacyUnit none cur cfg s st).1
        have hrec := ih { st1 with completed := st1.completed + 1,
                                   progress := st1.progress ++ [(st1.completed + 1, total)] }
        refine ⟨hrec.1, ?_, ?_⟩
        · rw [hrec.2.1]; simp only [hu.1]; omega
        · rw [hrec.2.2]
          simp only [hu.1, hu.2.1, progressRamp, List.append_assoc, List.singleton_append]

theorem filter_type_nil (t : IssueType) (l : List CompatibilityIssue)
    (h : ∀ i ∈ l, i.type ≠ t) : l.filter (fun i => i.type == t) = [] := by
  induction l with
  | nil => rfl
  | cons a l ih =>
    simp only [List.filter_cons]
    rw [if_neg (by simpa using h a (List.mem_cons_self a l))]
    exact ih (fun i hi => h i (List.mem_cons_of_mem a hi))

theorem filter_type_self (t : IssueType) (l : List CompatibilityIssue)
    (h : ∀ i ∈ l, i.type = t) : l.filter (fun i => i.type == t) = l := by
  induction l with
  | nil => rfl
  | cons a l ih =>
    simp only [List.filter_cons]
    rw [if_pos (by simpa using h a (List.mem_cons_self a l))]
    rw [ih (fun i hi => h i (List.mem_cons_of_mem a hi))]

theorem firstKeyCountError_type (nk : Nat) (ps : Json) :
    ∀ (ks : List String) (i : CompatibilityIssue),
      firstKeyCountError nk ps ks = some i → i.type = .device := by
  intro ks
  induction ks with
  | nil => intro i h; cases h
  | cons k rest ih =>
    intro i h
    simp only [firstKeyCountError] at h
    repeat' split at h
    all_goals first
      | (exact ih i h)
      | (cases h; rfl)

theorem deviceSection_types (d : Device) (cfg : Json) :
    ∀ i ∈ deviceSection d cfg, i.type = .device := by
  intro i hi
  simp only [deviceSection] at hi
  split at hi
  · cases hi
  · rcases List.mem_cons.mp hi with rfl | hi2
    · rfl
    · revert hi2
      split
      · split
        · intro hi2
          split at hi2
          · rcases List.mem_singleton.mp hi2 with rfl
            exact firstKeyCountError_type _ _ _ _ (by assumption)
          · cases hi2
        · intro hi2
          split at hi2
          · rcases List.mem_singleton.mp hi2 with rfl; rfl
          · cases hi2
      · intro hi2; cases hi2

theorem keyCountScan_types (mh : String) (nk : Option Nat) :
    ∀ (rows : List Json) (idx : Nat), ∀ i ∈ keyCountScan mh nk rows idx, i.type = .settings := by
  intro rows
  induction rows with
  | nil => intro idx i hi; cases hi
  | cons r rest ih =>
    intro idx i hi
    simp only [keyCountScan] at hi
    split at hi
    · rcases List.mem_singleton.mp hi with rfl; rfl
    · exact ih (idx + 1) i hi

theorem keymapShapeIssues_types (mh : String) (meta : DeviceMetadata) (p : Json) :
    ∀ i ∈ keymapShapeIssues mh meta p, i.type = .settings := by
  intro i hi
  simp only [keymapShapeIssues] at hi
  split at hi
  · split at hi
    · split at hi
      · rcases List.mem_singleton.mp hi with rfl; rfl
      · exact keyCountScan_types _ _ _ _ i hi
    · cases hi
  · cases hi

theorem advancedKeysIssues_types (mh : String) (meta : DeviceMetadata) (p : Json) :
    ∀ i ∈ advancedKeysIssues mh meta p, i.type = .settings := by
  intro i hi
  simp only [advancedKeysIssues] at hi
  split at hi
  · split at hi
    · split at hi
      · rcases List.mem_singleton.mp hi with rfl; rfl
      · cases hi
    · cases hi
  · cases hi

theorem settingsSectionNew_types (meta : DeviceMetadata) (ps cfg : Json) :
    ∀ i ∈ settingsSectionNew meta ps cfg, i.type = .settings := by
  intro i hi
  simp only [settingsSectionNew, List.mem_append] at hi
  rcases hi with (hi | hi) | hi
  · rcases List.mem_flatMap.mp hi with ⟨k, _, hk⟩
    revert hk
    split
    · intro hk
      simp only [profileSettingsIssues, List.mem_append] at hk
      rcases hk with hk | hk
      · exact keymapShapeIssues_types _ _ _ i hk
      · exact advancedKeysIssues_types _ _ _ i hk
    · intro hk; cases hk
  · revert hi
    split
    · intro hi; rcases List.mem_singleton.mp hi with rfl; rfl
    · intro hi; cases hi
  · revert hi
    split
    · intro hi; rcases List.mem_singleton.mp hi with rfl; rfl
    · intro hi; cases hi

theorem settingsSectionLegacy_types (meta : DeviceMetadata) (cfg : Json) :
    ∀ i ∈ settingsSectionLegacy meta cfg, i.type = .settings := by
  intro i hi
  simp only [settingsSectionLegacy, List.mem_append] at hi
  rcases hi with hi | hi
  · exact keymapShapeIssues_types _ _ _ i hi
  · exact advancedKeysIssues_types _ _ _ i hi

theorem firmwareSection_types (d : Device) (cfg : Json) :
    ∀ i ∈ firmwareSection d cfg, i.type = .firmware := by
  intro i hi
  simp only [firmwareSection] at hi
  split at hi
  · rcases List.mem_singleton.mp hi with rfl; rfl
  · revert hi
    split
    · intro hi; rcases List.mem_singleton.mp hi with rfl; rfl
    · split
      · intro hi; rcases List.mem_singleton.mp hi with rfl; rfl
      · intro hi; cases hi

/-- The firmware-typed issues of a full analysis are exactly the firmware
section's: the device, settings and availability sections never produce a
firmware-typed issue. -/
theorem checkCompatibility_firmware_filter (d : Device) (cfg : Json) :
    ((checkCompatibility (some d) cfg).issues.filter (fun i => i.type == .firmware))
      = firmwareSection d cfg := by
  simp only [checkCompatibility, List.filter_append]
  rw [filter_type_nil _ _ (fun i hi => by rw [deviceSection_types d cfg i hi]; intro h; cases h),
      filter_type_self _ _ (firmwareSection_types d cfg)]
  have h3 : (if jsTruthyO (cfg.get? "profiles") = true
      then settingsSectionNew d.metadata ((cfg.get? "profiles").getD .null) cfg
      else settingsSectionLegacy d.metadata cfg).filter (fun i => i.type == .firmware) = [] := by
    split
    · exact filter_type_nil _ _ (fun i hi => by
        rw [settingsSectionNew_types _ _ _ i hi]; intro h; cases h)
    · exact filter_type_nil _ _ (fun i hi => by
        rw [settingsSectionLegacy_types _ _ i hi]; intro h; cases h)
  have h4 : (if (availableSettingsList cfg).isEmpty = true
      then [({ type := .settings, severity := .error,
               message := "Config file contains no valid settings to import." } : CompatibilityIssue)]
      else []).filter (fun i => i.type == .firmware) = [] := by
    split <;> rfl
  rw [h3, h4]
  simp

theorem lookup_mem_keys : ∀ (fs : List (String × Json)) (k : String) (p : Json),
    fs.lookup k = some p → k ∈ fs.map Prod.fst := by
  intro fs
  induction fs with
  | nil => intro k p h; cases h
  | cons kv rest ih =>
    intro k p h
    simp only [List.lookup] at h
    by_cases hk : (k == kv.1) = true
    · simp [List.map_cons, beq_iff_eq.mp hk]
    · have hkf : (k == kv.1) = false := by simpa using hk
      simp only [hkf] at h
      simp [List.map_cons, ih k p h]

/-- What a passed `checkKeymap` guarantees: a non-empty array of non-empty
arrays. -/
theorem checkKeymap_spec (km : Json) (h : checkKeymap km = true) :
    ∃ xs, km = .arr xs ∧ xs ≠ [] ∧ ∀ l ∈ xs, ∃ ys, l = .arr ys ∧ ys ≠ [] := by
  cases km with
  | arr xs =>
    simp only [checkKeymap, Bool.and_eq_true, List.all_eq_true] at h
    refine ⟨xs, rfl, by simpa using h.1, ?_⟩
    intro l hl
    have := h.2 l hl
    cases l with
    | arr ys =>
      cases ys with
      | nil => simp at this
      | cons y ys => exact ⟨y :: ys, rfl, by simp⟩
    | null => simp at this
    | bool b => simp at this
    | num n => simp at this
    | str s => simp at this
    | obj fields => simp at this
  | null => simp [checkKeymap] at h
  | bool b => simp [checkKeymap] at h
  | num n => simp [checkKeymap] at h
  | str s => simp [checkKeymap] at h
  | obj fields => simp [checkKeymap] at h

theorem allTargets_push (l : List WriteCall) (p : Int) (w : WriteCall)
    (hl : allTargets l p = true) (hw : writeTargetsProfile w p = true) :
    allTargets (l ++ [w]) p = true := by
  simp_all [allTargets]

theorem applyKeymapLayers_targets (c : Option Nat) (p : Int) :
    ∀ (rows : List Json) (layer : Nat) (st : ApplyState),
      allTargets st.writes p = true →
      allTargets (applyKeymapLayers c p rows layer st).writes p = true := by
  intro rows
  induction rows with
  | nil => intro layer st h; exact h
  | cons r rest ih =>
    intro layer st h
    simp only [applyKeymapLayers]
    split
    · exact h
    · exact ih _ _ (allTargets_push _ _ _ h (by simp [writeTargetsProfile]))

theorem applyLegacyUnit_targets (c : Option Nat) (cur : Int) (cfg : Json)
    (setting : String) (st : ApplyState)
    (h : allTargets st.writes cur = true) :
    allTargets (applyLegacyUnit c cur cfg setting st).1.writes cur = true := by
  simp only [applyLegacyUnit]
  repeat' split
  all_goals
    first
    | exact h
    | exact applyKeymapLayers_targets c cur _ 0 st h
    | exact allTargets_push _ _ _ h (by simp [writeTargetsProfile])

theorem applySettingsLoop_legacy_targets (cfg : Json) (cur : Int) (total : Nat)
    (c : Option Nat) :
    ∀ (sel : List String) (st : ApplyState),
      allTargets st.writes cur = true →
      allTargets (applySettingsLoop c false cfg cur total sel st).1.writes cur = true := by
  intro sel
  induction sel with
  | nil => intro st h; exact h
  | cons s rest ih =>
    intro st h
    simp only [applySettingsLoop, Bool.false_and, Bool.false_eq_true, if_false]
    split
    · exact h
    · have hunit := applyLegacyUnit_targets c cur cfg s st h
      split
      · exact ih _ hunit
      · exact ih _ hunit

/-! ## Claim theorems -/

/-- C7: firmware comparison tolerates dotted (major component only) and
bare-integer document versions: version `"2.1.0"` against device firmware 1
yields exactly one firmware-typed issue, of warning severity; version `"1"`
against firmware 2 yields no firmware issue at all; an unparseable version
yields exactly one firmware/warning; and a failed firmware query is converted
into a single warning-severity issue rather than a thrown error. -/
theorem firmware_version_comparison (d : Device) (cfg : Json) :
    (getPath2 cfg "deviceInfo" "firmwareVersion" = some (.str "2.1.0") →
      d.firmwareRes = .ok 1 →
      ∃ m, (checkCompatibility (some d) cfg).issues.filter (fun i => i.type == .firmware)
        = [{ type := .firmware, severity := .warning, message := m }])
    ∧ (getPath2 cfg "deviceInfo" "firmwareVersion" = some (.str "1") →
      d.firmwareRes = .ok 2 →
      (checkCompatibility (some d) cfg).issues.filter (fun i => i.type == .firmware) = [])
    ∧ (∀ current : Int, d.firmwareRes = .ok current →
      parseConfigFirmware cfg = none →
      ∃ m, (checkCompatibility (some d) cfg).issues.filter (fun i => i.type == .firmware)
        = [{ type := .firmware, severity := .warning, message := m }])
    ∧ (d.firmwareRes = .error () →
      ∃ m, (checkCompatibility (some d) cfg).issues.filter (fun i => i.type == .firmware)
        = [{ type := .firmware, severity := .warning, message := m }]) := by
  refine ⟨?_, ?_, ?_, ?_⟩
  · intro hv hfw
    have hp : parseConfigFirmware cfg = some 2 := by
      unfold parseConfigFirmware
      rw [hv]
      rfl
    rw [checkCompatibility_firmware_filter]
    exact ⟨_, by simp only [firmwareSection, hfw, hp]; rw [if_pos (by norm_num)]⟩
  · intro hv hfw
    have hp : parseConfigFirmware cfg = some 1 := by
      unfold parseConfigFirmware
      rw [hv]
      rfl
    rw [checkCompatibility_firmware_filter]
    simp only [firmwareSection, hfw, hp]
    rw [if_neg (by norm_num)]
  · intro current hfw hp
    rw [checkCompatibility_firmware_filter]
    exact ⟨_, by simp only [firmwareSection, hfw, hp]; rfl⟩
  · intro hfw
    rw [checkCompatibility_firmware_filter]
    exact ⟨_, by simp only [firmwareSection, hfw]; rfl⟩

/-- Closed instance of `firmware_version_comparison` at the fixtures. -/
theorem firmware_version_comparison_check :
    (∃ m, (checkCompatibility (some devC2) cfgFw21).issues.filter (fun i => i.type == .firmware)
        = [{ type := .firmware, severity := .warning, message := m }])
    ∧ (checkCompatibility (some devFw2) cfgLegacy).issues.filter (fun i => i.type == .firmware) = []
    ∧ (∃ m, (checkCompatibility (some devC2) cfgFwBad).issues.filter (fun i => i.type == .firmware)
        = [{ type := .firmware, severity := .warning, message := m }])
    ∧ (∃ m, (checkCompatibility (some devFwErr) cfgLegacy).issues.filter (fun i => i.type == .firmware)
        = [{ type := .firmware, severity := .warning, message := m }]) :=
  ⟨(firmware_version_comparison devC2 cfgFw21).1 rfl rfl,
   (firmware_version_comparison devFw2 cfgLegacy).2.1 rfl rfl,
   (firmware_version_comparison devC2 cfgFwBad).2.2.1 1 rfl rfl,
   (firmware_version_comparison devFwErr cfgLegacy).2.2.2 rfl⟩

/-- C10: any document that passes `validateConfigFile` has, in every profile
of a current-generation document and in the legacy `settings` object alike,
either no `keymap` field or one that is a non-empty array all of whose layers
are non-empty arrays — equivalently, validation rejects at parse time every
document with a present-but-empty keymap or a layer that is not a non-empty
array.  The validator takes no device input, so device-dependent layer/key
counts are necessarily left to `checkCompatibility`. -/
theorem validation_rejects_empty_keymaps (cfg : Json)
    (hv : validateConfigFile cfg = true) :
    (∀ (fs : List (String × Json)), cfg.get? "profiles" = some (.obj fs) →
      ∀ (k : String) (p : Json), fs.lookup k = some p →
      ∀ km, p.get? "keymap" = some km →
      ∃ xs, km = .arr xs ∧ xs ≠ [] ∧ ∀ l ∈ xs, ∃ ys, l = .arr ys ∧ ys ≠ [])
    ∧ (jsTruthyO (cfg.get? "profiles") = false →
      ∀ (s : Json), cfg.get? "settings" = some s →
      ∀ km, s.get? "keymap" = some km →
      ∃ xs, km = .arr xs ∧ xs ≠ [] ∧ ∀ l ∈ xs, ∃ ys, l = .arr ys ∧ ys ≠ []) := by
  constructor
  · intro fs hps k p hlk km hkm
    simp only [validateConfigFile] at hv
    repeat' split at hv
    any_goals exact Bool.noConfusion hv
    case _ =>
      -- surviving branch: hv : validateNewFormat cfg (.obj fs) = true
      rw [hps] at hv
      simp only [Option.getD_some] at hv
      simp only [validateNewFormat] at hv
      repeat' split at hv
      any_goals exact Bool.noConfusion hv
      rename_i hkeysAll _
      have hall : ((Json.obj fs).jsKeys.all (fun pid =>
          match (Json.obj fs).get? pid with
          | some p => checkProfileEntry p
          | none => false)) = true := by simpa using hkeysAll
      have hk : k ∈ (Json.obj fs).jsKeys := by
        simpa [Json.jsKeys] using lookup_mem_keys fs k p hlk
      have hcp := List.all_eq_true.mp hall k hk
      have hg : (Json.obj fs).get? k = some p := hlk
      rw [hg] at hcp
      simp only at hcp
      simp only [checkProfileEntry, hkm] at hcp
      repeat' split at hcp
      any_goals exact Bool.noConfusion hcp
      exact checkKeymap_spec km hcp
    case _ =>
      rename_i hcond
      rw [hps] at hcond
      exact absurd rfl hcond
  · intro hfalse s hs km hkm
    simp only [validateConfigFile] at hv
    rw [hfalse] at hv
    simp only [Bool.false_eq_true, if_false] at hv
    repeat' split at hv
    any_goals exact Bool.noConfusion hv
    · simp only [validateLegacy, hs, hkm] at hv
      repeat' split at hv
      any_goals exact Bool.noConfusion hv
      exact checkKeymap_spec km hv

/-- Closed instance of `validation_rejects_empty_keymaps` at `cfg3` (new
format) and `cfgLegacyKm` (legacy format). -/
theorem validation_rejects_empty_keymaps_check :
    (∃ xs, (Json.arr [.arr [.num 1]]) = Json.arr xs ∧ xs ≠ []
        ∧ ∀ l ∈ xs, ∃ ys, l = Json.arr ys ∧ ys ≠ [])
    ∧ (∃ xs, (Json.arr [.arr [.num 1]]) = Json.arr xs ∧ xs ≠ []
        ∧ ∀ l ∈ xs, ∃ ys, l = Json.arr ys ∧ ys ≠ []) :=
  ⟨(validation_rejects_empty_keymaps cfg3 rfl).1
      [("0", prof1), ("1", prof1), ("2", prof1)] rfl "0" prof1 rfl
      (.arr [.arr [.num 1]]) rfl,
   (validation_rejects_empty_keymaps cfgLegacyKm rfl).2 rfl
      (.obj [("keymap", .arr [.arr [.num 1]])]) rfl
      (.arr [.arr [.num 1]]) rfl⟩

/-- C9: with no device connected, `checkCompatibility` returns immediately
with exactly one issue — category `device`, severity `error` — and performs
no further check: in particular the firmware query is never made
(`firmwareQueried = false`), so no firmware, settings-shape, profile-count or
emptiness issue can appear. -/
theorem checkCompatibility_no_device (cfg : Json) :
    checkCompatibility none cfg =
      { issues := [{ type := .device, severity := .error,
                     message := "No device connected." }],
        firmwareQueried := false } := rfl

/-- C8: a file above the 5 MiB cap is rejected as an input error before any
parse is attempted and before any device contact, and a file whose lowercased
name does not end in `.json` is likewise rejected before parsing; both
rejections return failure. -/
theorem import_rejects_oversize_and_wrong_extension
    (device : Option Device) (cancelAfter : Option Nat) (file : ImportFile) :
    (file.size > 5 * 1024 * 1024 →
      importConfig device cancelAfter file =
        { outcome := .fileTooLarge, success := false, parseAttempted := false,
          deviceContacted := false, writes := [] })
    ∧ (file.size ≤ 5 * 1024 * 1024 → endsWithJson file.name = false →
      importConfig device cancelAfter file =
        { outcome := .wrongExtension, success := false, parseAttempted := false,
          deviceContacted := false, writes := [] }) := by
  constructor
  · intro h
    simp only [importConfig, if_pos h]
  · intro hsize hext
    simp only [importConfig, hext]
    rw [if_neg (by omega)]
    simp

/-- Closed instance of `import_rejects_oversize_and_wrong_extension`: a
5 MiB + 1 byte file is rejected as too large, and a `.txt` file is rejected
for its extension. -/
theorem import_rejects_oversize_and_wrong_extension_check :
    importConfig none none ⟨"config.json", 5 * 1024 * 1024 + 1, true, .error ()⟩ =
      { outcome := .fileTooLarge, success := false, parseAttempted := false,
        deviceContacted := false, writes := [] }
    ∧ importConfig none none ⟨"settings.txt", 10, true, .error ()⟩ =
      { outcome := .wrongExtension, success := false, parseAttempted := false,
        deviceContacted := false, writes := [] } :=
  ⟨(import_rejects_oversize_and_wrong_extension none none
      ⟨"config.json", 5 * 1024 * 1024 + 1, true, .error ()⟩).1 (by norm_num),
   (import_rejects_oversize_and_wrong_extension none none
      ⟨"settings.txt", 10, true, .error ()⟩).2 (by norm_num) (by rfl)⟩

/-- C6 (the claim's intent, which the code misses): when the firmware query
fails during export, the export is indeed not aborted, but the exported
`deviceInfo.firmwareVersion` is the string `"0"`, not the literal
`"unknown"`: `getFirmwareVersion` catches the failure itself and returns the
number `0`, which makes the `catch` branch of `exportConfig` that would
substitute `"unknown"` unreachable, and `(0).toString()` is `"0"`. -/
theorem export_firmware_failure_exports_zero :
    exportedFirmware (exportConfig (some devC6)) = some "0"
    ∧ exportedFirmware (exportConfig (some devC6)) ≠ some "unknown" :=
  ⟨rfl, by decide⟩

/-- C1: when compatibility analysis reports at least one error-severity
issue, the apply pipeline is never run on the document: `importConfig` stops
at the compatibility dialog, surfacing the full issue list, with no device
write performed; and the dialog's "Import Selected" action is disabled
whenever an error-severity issue is present, for every selection, so no
device write for the document can be initiated (there is no partial-apply
path around an error-level issue). -/
theorem error_issues_block_apply
    (device : Option Device) (cancelAfter : Option Nat) (file : ImportFile) (cfg : Json)
    (hsize : file.size ≤ 5 * 1024 * 1024)
    (hext : endsWithJson file.name = true)
    (hread : file.readOk = true)
    (hparse : file.parsed = .ok cfg)
    (hvalid : validateConfigFile cfg = true)
    (herr : hasErrors (checkCompatibility device cfg).issues = true) :
    (importConfig device cancelAfter file).outcome
      = .dialogShown (checkCompatibility device cfg).issues
    ∧ (importConfig device cancelAfter file).writes = []
    ∧ ∀ (selected : List String) (isApplying : Bool),
        dialogContinue device cancelAfter cfg (checkCompatibility device cfg).issues
          selected isApplying = none := by
  have hne : (checkCompatibility device cfg).issues.isEmpty = false := by
    rcases List.any_eq_true.mp herr with ⟨i, hi, _⟩
    cases h : (checkCompatibility device cfg).issues with
    | nil => rw [h] at hi; cases hi
    | cons a l => rfl
  refine ⟨?_, ?_, ?_⟩
  · simp only [importConfig]
    rw [if_neg (by omega)]
    simp [hext, hread, hparse, hvalid, hne]
  · simp only [importConfig]
    rw [if_neg (by omega)]
    simp [hext, hread, hparse, hvalid, hne]
  · intro selected isApplying
    simp [dialogContinue, continueDisabled, herr]

/-- Closed instance of `error_issues_block_apply`: importing a valid document
with no device connected (whose analysis is a single device/error issue)
performs no write, and the dialog's continue action stays disabled. -/
theorem error_issues_block_apply_check :
    (importConfig none none ⟨"config.json", 10, true, .ok cfgLegacy⟩).writes = []
    ∧ dialogContinue none none cfgLegacy (checkCompatibility none cfgLegacy).issues
        ["tickRate"] false = none :=
  ⟨(error_issues_block_apply none none ⟨"config.json", 10, true, .ok cfgLegacy⟩ cfgLegacy
      (by norm_num) rfl rfl rfl rfl rfl).2.1,
   (error_issues_block_apply none none ⟨"config.json", 10, true, .ok cfgLegacy⟩ cfgLegacy
      (by norm_num) rfl rfl rfl rfl rfl).2.2 ["tickRate"] false⟩

/-- C2 counterexample: `cfg3` has three profiles, each with a one-layer
keymap and a tick rate, and `devC2` is fully compatible, so the import
selects the single unit `["profiles"]`.  With the cancellation flag raised
after profile 0's two writes (`cancelAfter = some 2`), the pipeline does end
in `Cancelled` and profile 0's writes are kept, but the write log also
contains `setTickRate` writes for profiles 1 and 2, attempted after the flag
was up: the three profiles form one apply-unit, inside which only the keymap
layer loops consult the flag, so the claim that "no device write for the
remaining two profiles is ever attempted" is false. -/
theorem cancel_mid_profiles_writes_remaining :
    applySettings (some devC2) (some 2) cfg3 ["profiles"] =
      { outcome := .cancelled, success := false,
        writes := [.setKeymap 0 0 0 (.arr [.num 1]), .setTickRate 0 (.num 5),
                   .setTickRate 1 (.num 5), .setTickRate 2 (.num 5)],
        completedSteps := 1, totalSteps := 1, progress := [(1, 1)] } := rfl

/-- C2 as amended: the cancellation flag is checked before each apply-unit
(a unit whose boundary check sees the flag up is never started, and a raised
flag makes the terminal outcome `Cancelled` with no rollback of earlier
writes) and before each keymap-layer write; but the three profiles of a
current-generation document form a single `profiles` apply-unit, inside which
a raised flag skips only the remaining keymap-layer writes while the
remaining profiles' actuation-map, advanced-key and tick-rate writes are
still attempted. -/
theorem cancel_checked_at_unit_and_layer_boundaries :
    (∀ (device : Device) (cfg : Json) (s : String) (rest : List String),
      (applySettings (some device) (some 0) cfg (s :: rest)).outcome = .cancelled
      ∧ (applySettings (some device) (some 0) cfg (s :: rest)).writes = [])
    ∧ (∀ (cancelAfter : Option Nat) (profile : Int) (row : Json)
         (rest : List Json) (layer : Nat) (st : ApplyState),
      cancelRaised cancelAfter st.writes.length = true →
      applyKeymapLayers cancelAfter profile (row :: rest) layer st = st)
    ∧ applySettings (some devC2) (some 2) cfg3 ["profiles"] =
      { outcome := .cancelled, success := false,
        writes := [.setKeymap 0 0 0 (.arr [.num 1]), .setTickRate 0 (.num 5),
                   .setTickRate 1 (.num 5), .setTickRate 2 (.num 5)],
        completedSteps := 1, totalSteps := 1, progress := [(1, 1)] } := by
  refine ⟨fun device cfg s rest => ⟨rfl, rfl⟩, ?_, rfl⟩
  intro cancelAfter profile row rest layer st h
  simp [applyKeymapLayers, h]

/-- Closed instance of `cancel_checked_at_unit_and_layer_boundaries`. -/
theorem cancel_checked_at_unit_and_layer_boundaries_check :
    (applySettings (some devC2) (some 0) cfg3 ("profiles" :: [])).writes = []
    ∧ applyKeymapLayers (some 0) 0 [.num 1] 0 ⟨[], 0, []⟩ = ⟨[], 0, []⟩ :=
  ⟨(cancel_checked_at_unit_and_layer_boundaries.1 devC2 cfg3 "profiles" []).2,
   cancel_checked_at_unit_and_layer_boundaries.2.1 (some 0) 0 (.num 1) [] 0
     ⟨[], 0, []⟩ (by rfl)⟩

/-- C3 counterexample: for the three-profile document `cfg3`, the claim calls
for three apply-units (one per profile key) and a progress total of 3, but
the code counts `totalSteps = selectedSettings.length`: the whole `profiles`
map is one unit, so total and completed are 1 and the single progress event
is `(1, 1)`, not three events with total 3. -/
theorem profiles_map_is_single_apply_unit :
    (applySettings (some devC2) none cfg3 ["profiles"]).totalSteps = 1
    ∧ (applySettings (some devC2) none cfg3 ["profiles"]).completedSteps = 1
    ∧ (applySettings (some devC2) none cfg3 ["profiles"]).progress = [(1, 1)]
    ∧ ((cfg3.get? "profiles").getD .null).jsKeys.length = 3
    ∧ (1 : Nat) ≠ 3 :=
  ⟨rfl, rfl, rfl, rfl, by decide⟩

/-- C3 as amended: the progress total is the number of *selected settings*
(the whole `profiles` map being a single apply-unit for current-generation
documents, optionally joined by `calibration`); with no cancellation the
`completed` counter is incremented once per attempted unit that did not throw
and the progress events are exactly `(1, total), …, (completed, total)`; and
for legacy documents every device write of the run addresses the resolved
current profile (calibration being device-global). -/
theorem apply_unit_accounting :
    (∀ (device : Device) (cancelAfter : Option Nat) (cfg : Json) (sel : List String),
      (applySettings (some device) cancelAfter cfg sel).totalSteps = sel.length)
    ∧ (∀ (device : Device) (cfg : Json) (sel : List String),
      (applySettings (some device) none cfg sel).completedSteps
        = (sel.filter (fun s => !unitThrows ((cfg.get? "profiles").isSome) cfg s)).length
      ∧ (applySettings (some device) none cfg sel).progress
        = progressRamp 0 sel.length
            (sel.filter (fun s => !unitThrows ((cfg.get? "profiles").isSome) cfg s)).length)
    ∧ (∀ (device : Device) (cancelAfter : Option Nat) (cfg : Json) (sel : List String),
      cfg.get? "profiles" = none →
      allTargets (applySettings (some device) cancelAfter cfg sel).writes
        (resolvedProfile device) = true) := by
  refine ⟨?_, ?_, ?_⟩
  · intro device cancelAfter cfg sel
    simp only [applySettings]
    repeat' split
    all_goals rfl
  · intro device cfg sel
    have h := applySettingsLoop_none_spec (cfg.get? "profiles").isSome cfg
      (resolvedProfile device) sel.length sel ⟨[], 0, []⟩
    simp only [applySettings, h.1, cancelRaised_none, Bool.false_eq_true, if_false]
    constructor
    · rw [h.2.1]; simp
    · rw [h.2.2]
      simp
  · intro device cancelAfter cfg sel hp
    simp only [applySettings, hp, Option.isSome_none]
    repeat' split
    all_goals
      exact applySettingsLoop_legacy_targets cfg (resolvedProfile device) sel.length
        cancelAfter sel ⟨[], 0, []⟩ rfl

/-- C4 counterexample: for `devC4`, profile 0's keymap, advanced-key and
tick-rate fetches all succeed and only the actuation-map fetch fails — yet
profile 0 is omitted entirely from the exported `profiles` (which ends up
empty): `fetchProfileData` runs all four reads inside one `try`, so a single
field failure discards the whole profile instead of omitting just that field,
refuting both halves of the claim (a profile is dropped even though not every
one of its field fetches failed). -/
theorem single_field_failure_omits_whole_profile :
    exportConfig (some devC4) =
      .exported { version := "1.0", deviceName := "HE60", firmwareVersion := "1",
                  deviceId := "d", profiles := [],
                  calibration := some (.arr [.num 100]) }
    ∧ devC4.getKeymapRes 0 = .ok (.arr [.arr [.num 1]])
    ∧ devC4.getAdvancedKeysRes 0 = .ok (.arr [.num 2])
    ∧ devC4.getTickRateRes 0 = .ok (.num 1)
    ∧ fetchProfileData devC4 0 = none :=
  ⟨rfl, rfl, rfl, rfl, rfl⟩

/-- C4 as amended: during export a profile's data survives exactly when *all
four* of its field fetches succeed — any single fetch failure causes the
entire profile (not just the failing field) to be omitted, the remaining
fetches for that profile being skipped; the exported `profiles` map contains
exactly the profiles 0-4 whose fetch succeeded, so one profile's failure
never disturbs the others, and the export itself continues. -/
theorem export_profile_all_or_nothing :
    (∀ (d : ExportDevice) (pid : Nat),
      (fetchProfileData d pid).isSome = true ↔
        ((∃ v, d.getKeymapRes pid = .ok v) ∧ (∃ v, d.getActuationMapRes pid = .ok v)
         ∧ (∃ v, d.getAdvancedKeysRes pid = .ok v) ∧ (∃ v, d.getTickRateRes pid = .ok v)))
    ∧ (∀ (d : ExportDevice) (pid : Nat) (p : ExportedProfile),
      (pid, p) ∈ exportProfiles d ↔
        (pid < 5 ∧ ∃ fp, fetchProfileData d pid = some fp ∧ p = buildProfileEntry fp))
    ∧ (∀ (d : ExportDevice) (cfg : ExportedConfig),
      exportConfig (some d) = .exported cfg → cfg.profiles = exportProfiles d) := by
  refine ⟨?_, ?_, ?_⟩
  · intro d pid
    simp only [fetchProfileData]
    cases h1 : d.getKeymapRes pid <;> cases h2 : d.getActuationMapRes pid <;>
      cases h3 : d.getAdvancedKeysRes pid <;> cases h4 : d.getTickRateRes pid <;>
      simp
  · intro d pid p
    simp only [exportProfiles, List.mem_filterMap, List.mem_range, Option.map_eq_some',
               Prod.mk.injEq]
    constructor
    · rintro ⟨a, ha, fp, hfp, rfl, rfl⟩
      exact ⟨ha, fp, hfp, rfl⟩
    · rintro ⟨hpid, fp, hfp, rfl⟩
      exact ⟨pid, hpid, fp, hfp, rfl, rfl⟩
  · intro d cfg h
    simp only [exportConfig] at h
    split at h
    · cases h
    · rw [← ExportResult.exported.inj h]

/-- Closed instance of `export_profile_all_or_nothing`. -/
theorem export_profile_all_or_nothing_check :
    ({ version := "1.0", deviceName := "HE60", firmwareVersion := "1",
       deviceId := "d", profiles := [],
       calibration := some (.arr [.num 100]) } : ExportedConfig).profiles
      = exportProfiles devC4 :=
  export_profile_all_or_nothing.2.2 devC4 _ rfl

/-- C5 counterexample: against `devAdv` (capacity 2), the document `cfgAdv`
whose profile 0 carries a three-entry advanced-key table gets exactly the
expected settings/warning from compatibility analysis — but at apply time the
write log contains `setAdvancedKeys` with the *complete three-entry table*:
nothing in the apply pipeline drops the excess entry before the device write,
refuting the claim that excess entries are dropped rather than written. -/
theorem advanced_keys_excess_written_in_full :
    (checkCompatibility (some devAdv) cfgAdv).issues =
      [{ type := .settings, severity := .warning,
         message := "Profile 0: Advanced keys count exceeds device capacity (config file: 3, device: 2)." }]
    ∧ (applySettings (some devAdv) none cfgAdv ["profiles"]).writes =
      [.setAdvancedKeys 0 0 (.arr [.num 1, .num 2, .num 3])]
    ∧ advCount (.arr [.num 1, .num 2, .num 3]) = 3
    ∧ devAdv.metadata.numAdvancedKeys = some 2 :=
  ⟨rfl, rfl, rfl, rfl⟩

/-- C5 as amended: for every profile whose truthy advanced-key table is
larger than the device's (nonzero) `numAdvancedKeys`, compatibility analysis
emits a settings-category *warning* (not an error); and at apply time the
table is passed *unmodified* — excess entries included — to the
`setAdvancedKeys` device write. -/
theorem advanced_keys_warning_and_full_write :
    (∀ (d : Device) (cfg : Json) (fs : List (String × Json)) (k : String)
       (p adv : Json) (cap : Nat),
      cfg.get? "profiles" = some (.obj fs) →
      fs.lookup k = some p →
      p.get? "advancedKeys" = some adv →
      adv.truthy = true →
      d.metadata.numAdvancedKeys = some cap →
      cap ≠ 0 →
      advCount adv > cap →
      ∃ m, ({ type := .settings, severity := .warning, message := m } : CompatibilityIssue)
              ∈ (checkCompatibility (some d) cfg).issues)
    ∧ (∀ (c : Option Nat) (pnum : Int) (p adv : Json) (st : ApplyState),
      p.get? "advancedKeys" = some adv →
      adv.truthy = true →
      WriteCall.setAdvancedKeys pnum 0 adv ∈ (applyProfileFields c pnum p st).writes) := by
  constructor
  · intro d cfg fs k p adv cap hps hlk hadv htr hcap hcap0 hsz
    obtain ⟨m, hone⟩ : ∃ m, advancedKeysIssues (s!"Profile {k}: ") d.metadata p =
        [{ type := .settings, severity := .warning, message := m }] := by
      simp only [advancedKeysIssues, hadv, htr, hcap, truthyNum, Option.getD_some]
      rw [if_pos (by simpa using hcap0), if_pos (by simpa using hsz)]
      exact ⟨_, rfl⟩
    refine ⟨m, ?_⟩
    have hkeys : k ∈ (Json.obj fs).jsKeys := by
      simpa [Json.jsKeys] using lookup_mem_keys fs k p hlk
    simp only [checkCompatibility, hps, Option.getD_some, jsTruthyO, Json.truthy, if_true,
               settingsSectionNew]
    apply List.mem_append_left
    apply List.mem_append_right
    apply List.mem_append_left
    apply List.mem_append_left
    apply List.mem_flatMap.mpr
    refine ⟨k, hkeys, ?_⟩
    have hg : (Json.obj fs).get? k = some p := hlk
    rw [hg]
    apply List.mem_append_right
    rw [hone]
    exact List.mem_singleton_self _
  · intro c pnum p adv st hadv htr
    simp only [applyProfileFields, hadv, htr, if_true]
    cases htk : p.get? "tickRate"
    · simp [pushWrite]
    · simp [pushWrite]

/-- Closed instance of `advanced_keys_warning_and_full_write`. -/
theorem advanced_keys_warning_and_full_write_check :
    (∃ m, ({ type := .settings, severity := .warning, message := m } : CompatibilityIssue)
        ∈ (checkCompatibility (some devAdv) cfgAdv).issues)
    ∧ WriteCall.setAdvancedKeys 0 0 (.arr [.num 1, .num 2, .num 3])
        ∈ (applyProfileFields none 0 (.obj [("advancedKeys", .arr [.num 1, .num 2, .num 3])])
             ⟨[], 0, []⟩).writes :=
  ⟨advanced_keys_warning_and_full_write.1 devAdv cfgAdv
      [("0", .obj [("advancedKeys", .arr [.num 1, .num 2, .num 3])])] "0"
      (.obj [("advancedKeys", .arr [.num 1, .num 2, .num 3])])
      (.arr [.num 1, .num 2, .num 3]) 2 rfl rfl rfl rfl rfl (by decide) (by decide),
   advanced_keys_warning_and_full_write.2 none 0
      (.obj [("advancedKeys", .arr [.num 1, .num 2, .num 3])])
      (.arr [.num 1, .num 2, .num 3]) ⟨[], 0, []⟩ rfl rfl⟩

/-- Closed instance of `apply_unit_accounting`. -/
theorem apply_unit_accounting_check :
    (applySettings (some devC2) none cfg3 ["profiles"]).totalSteps = 1
    ∧ (applySettings (some devC2) none cfg3 ["profiles"]).completedSteps
        = (["profiles"].filter
            (fun s => !unitThrows ((cfg3.get? "profiles").isSome) cfg3 s)).length
    ∧ allTargets (applySettings (some devC2) none cfgLegacy ["tickRate"]).writes
        (resolvedProfile devC2) = true :=
  ⟨apply_unit_accounting.1 devC2 none cfg3 ["profiles"],
   (apply_unit_accounting.2.1 devC2 cfg3 ["profiles"]).1,
   apply_unit_accounting.2.2 devC2 none cfgLegacy ["tickRate"] rfl⟩

end Hmkconf
